import Mathlib

/-!
Verification of the gregor push-notification client
(`go/service/gregor.go`): a shallow embedding of the handler state,
the broadcast pipeline, sync/replay, auth, and shutdown, with theorems
checking the natural-language specification against the code.

Side effects of the Go code (handler callbacks, state-machine consumption,
firehose pushes, outbound RPCs, channel closes) are recorded as an explicit
event trace; external collaborators (session provider, the Sync RPC result,
the random MsgID source, out-of-band system handlers) are passed in as
parameters, so every definition is executable.
-/

namespace Gregor

/-- Errors are modelled by their message strings. -/
abbrev GErr := String

/-- An opaque message identifier: a byte string. -/
abbrev MsgID := List Nat

/-- Message metadata: user id, message id, server creation time
(`gregor1.Metadata`). -/
structure Metadata where
  uid : List Nat
  msgID : MsgID
  ctime : Nat
  deriving DecidableEq, Repr

/-- The category/body payload of a creation as carried inside a
`StateUpdateMessage` (`gregor1.Item`); its metadata comes from the
enclosing message. A nil Go category is `none`. -/
structure ItemCore where
  category : Option String
  body : List Nat
  deriving DecidableEq, Repr

/-- An item living in the state machine, or dispatched to a handler:
payload plus metadata (`gregor1.ItemAndMetadata`). -/
structure Item where
  md : Metadata
  category : Option String
  body : List Nat
  deriving DecidableEq, Repr

/-- A time/category range inside a dismissal (`gregor1.MsgRange`).
Only its presence matters to the embedded code. -/
structure MsgRange where
  endTime : Nat
  category : Option String
  deriving DecidableEq, Repr

/-- A dismissal: explicit message ids and/or ranges (`gregor1.Dismissal`). -/
structure Dismissal where
  msgIDs : List MsgID
  ranges : List MsgRange
  deriving DecidableEq, Repr

/-- A state-update in-band message: metadata, optional creation, optional
dismissal (`gregor1.StateUpdateMessage`). -/
structure StateUpdateMessage where
  md : Metadata
  creation : Option ItemCore
  dismissal : Option Dismissal
  deriving DecidableEq, Repr

/-- A state-sync in-band message (`gregor1.StateSyncMessage`); the embedded
code only inspects its presence and metadata. -/
structure StateSyncMessage where
  md : Metadata
  deriving DecidableEq, Repr

/-- An in-band message is one of the two variants, modelled as in the wire
type by two optional fields (`gregor1.InBandMessage`). -/
structure InBandMessage where
  stateUpdate : Option StateUpdateMessage
  stateSync : Option StateSyncMessage
  deriving DecidableEq, Repr

/-- `InBandMessage.Metadata()`: the state-update metadata if present,
else the state-sync metadata. -/
def InBandMessage.metadata (m : InBandMessage) : Option Metadata :=
  match m.stateUpdate with
  | some u => some u.md
  | none => m.stateSync.map (fun s => s.md)

/-- An out-of-band message (`gregor1.OutOfBandMessage`); a nil Go system
tag is `none`. -/
structure OutOfBandMessage where
  uid : List Nat
  system : Option String
  body : Option (List Nat)
  deriving DecidableEq, Repr

/-- A wire message: at most one of the in-band / out-of-band halves is
meaningful (`gregor1.Message`). -/
structure Message where
  ibm : Option InBandMessage
  oobm : Option OutOfBandMessage
  deriving DecidableEq, Repr

/-- Reason attached to a firehose state push (`keybase1.PushReason`). -/
inductive PushReason where
  | reconnected
  | newData
  deriving DecidableEq, Repr

/-- Observable effects of the embedded code, recorded in order. -/
inductive Event where
  | createCall (handlerName : String) (category : String) (msgID : MsgID)
  | dismissCall (handlerName : String) (category : String) (msgID : MsgID)
  | consumeEv
  | pushStateEv (handlerName : String) (reason : PushReason)
  | pushOobmEv (handlerName : String)
  | badgerPush
  | rpcConsume (m : Message)
  | closeShutdownCh
  | doubleClosePanic
  | connShutdownEv
  deriving DecidableEq, Repr

/-- An in-band handler (`libkb.GregorInBandMessageHandler`): liveness plus
the `Create` and `Dismiss` callbacks, modelled as pure functions from
(category, item) to (handled, error). -/
structure IBMHandler where
  name : String
  isAlive : Bool
  create : String → Item → Bool × Option GErr
  dismiss : String → Item → Bool × Option GErr

/-- A firehose handler (`libkb.GregorFirehoseHandler`): its push callbacks
only log failures, so only name and liveness are modelled. -/
structure FirehoseHandler where
  name : String
  isAlive : Bool
  deriving DecidableEq, Repr

/-- Modelled from the spec: the gregor client with its in-memory state
machine (`grclient.Client` with `storage.MemEngine`, which is not under
src/). It holds the live items, the watermark of the last consumed
message, and the in-band message log used for incremental replay. -/
structure GClient where
  items : List Item
  latestCTime : Option Nat
  log : List InBandMessage
  deriving DecidableEq, Repr

/-- The push client state (`gregorHandler`): gregor client, the two
handler lists, the connection/shutdown fields and flags. External
collaborators (push-state filter, out-of-band system handler outcomes,
the environment UID) are carried as fields. -/
structure GregorHandler where
  gregorCli : Option GClient
  ibmHandlers : List IBMHandler
  firehoseHandlers : List FirehoseHandler
  skipRetryConnect : Bool
  freshReplay : Bool
  conn : Option Unit
  shutdownChClosed : Bool
  sessionID : String
  badger : Bool
  pushStateFilter : Message → Bool
  sysHandlers : String → Option GErr
  uid : Option (List Nat)

/-- Modelled from the spec: `state.GetItem(msgID)` of the gregor state
(the gregor library is not under src/) — look up the unique item with the
given message id. -/
def stateGetItem (items : List Item) (id : MsgID) : Option Item :=
  items.find? (fun it => decide (it.md.msgID = id))

/-- Modelled from the spec: `StateMachineConsumeMessage` (§4.1 Consume of
the spec; `storage.MemEngine` is not under src/). A state update removes
the dismissed ids, adds the creation unless already present, advances the
watermark to the max of itself and the message ctime, and appends the
message to the replay log. -/
def GClient.consumeMessage (c : GClient) (m : Message) : GClient :=
  match m.ibm with
  | none => c
  | some ibm =>
    match ibm.stateUpdate with
    | none => c
    | some u =>
      let afterDismiss :=
        match u.dismissal with
        | some d => c.items.filter (fun it => decide (it.md.msgID ∉ d.msgIDs))
        | none => c.items
      let afterCreate :=
        match u.creation with
        | some core =>
          if (stateGetItem afterDismiss u.md.msgID).isSome then afterDismiss
          else afterDismiss ++ [{ md := u.md, category := core.category, body := core.body }]
        | none => afterDismiss
      { items := afterCreate
        latestCTime := some (max (c.latestCTime.getD 0) u.md.ctime)
        log := c.log ++ [ibm] }

/-- Modelled from the spec: `InBandMessagesFromState` — one creation
message per live item (used by a fresh replay). -/
def inBandMessagesFromState (items : List Item) : List InBandMessage :=
  items.map (fun it =>
    { stateUpdate := some
        { md := it.md
          creation := some { category := it.category, body := it.body }
          dismissal := none }
      stateSync := none })

/-- The ctime of an in-band message, defaulting to zero. -/
def ibmCTime (m : InBandMessage) : Nat :=
  (m.metadata.map (fun md => md.ctime)).getD 0

/-- Modelled from the spec: the message fetch of `replayInBandMessages` —
a zero time (`none`) means a fresh replay from the state items, otherwise
the in-band messages with ctime strictly after the watermark
(`StateMachineInBandMessagesSince`). -/
def replayFetch (c : GClient) : Option Nat → List InBandMessage
  | none => inBandMessagesFromState c.items
  | some t => c.log.filter (fun m => decide (t < ibmCTime m))

/-- `iterateOverFirehoseHandlers`: apply the callback (recorded as one
event) to every live firehose handler in order and keep exactly the live
ones. -/
def iterateOverFirehoseHandlers (f : FirehoseHandler → Event) :
    List FirehoseHandler → List FirehoseHandler × List Event
  | [] => ([], [])
  | h :: rest =>
    let tail := iterateOverFirehoseHandlers f rest
    if h.isAlive then (h :: tail.1, f h :: tail.2) else tail

/-- `getState`: the exported state, erroring when the gregor client is
unset. -/
def getState (g : GregorHandler) : Option (List Item) :=
  g.gregorCli.map (fun c => c.items)

/-- `pushState`: push the current state snapshot to every live firehose
handler (pruning the list) and to the badger if present; on a state fetch
failure only a warning is logged. -/
def pushState (g : GregorHandler) (r : PushReason) : GregorHandler × List Event :=
  match getState g with
  | none => (g, [])
  | some _s =>
    let it := iterateOverFirehoseHandlers (fun h => Event.pushStateEv h.name r)
      g.firehoseHandlers
    ({ g with firehoseHandlers := it.1 },
      it.2 ++ (if g.badger then [Event.badgerPush] else []))

/-- `pushOutOfBandMessages`: mirror out-of-band messages to every live
firehose handler, pruning the list. -/
def pushOutOfBandMessages (g : GregorHandler) : GregorHandler × List Event :=
  let it := iterateOverFirehoseHandlers (fun h => Event.pushOobmEv h.name)
    g.firehoseHandlers
  ({ g with firehoseHandlers := it.1 }, it.2)

/-- The dismissal loop of `handleInBandMessageWithHandler`: for each target
id in order, an absent id is skipped; a present id produces one `Dismiss`
call on the handler with the item category (empty string when nil); a call
returning handled together with an error aborts the loop with that result,
any other error is dropped. -/
def dismissLoop (h : IBMHandler) (state : List Item) :
    List MsgID → Option (Bool × GErr) × List Event
  | [] => (none, [])
  | id :: rest =>
    match stateGetItem state id with
    | none => dismissLoop h state rest
    | some item =>
      let category := item.category.getD ""
      let res := h.dismiss category item
      let ev := Event.dismissCall h.name category item.md.msgID
      match res.2 with
      | some err =>
        if res.1 then (some (res.1, err), [ev])
        else
          let tail := dismissLoop h state rest
          (tail.1, ev :: tail.2)
      | none =>
        let tail := dismissLoop h state rest
        (tail.1, ev :: tail.2)

/-- `handleInBandMessageWithHandler`: run one in-band message against one
handler. A state-sync message is a no-op `(false, nil)`; a state update
runs `Create` on the creation (any error returns early), then the
dismissal loop over the explicit ids; ranges are only logged; the fallback
for a message with neither variant is `(false, nil)`. -/
def handleIBMWithHandler (gcliO : Option GClient) (ibm : InBandMessage)
    (h : IBMHandler) : (Bool × Option GErr) × List Event :=
  match gcliO with
  | none => ((false, some "client unset"), [])
  | some gcli =>
    let state := gcli.items
    match ibm.stateSync with
    | some _ => ((false, none), [])
    | none =>
      match ibm.stateUpdate with
      | none => ((false, none), [])
      | some u =>
        let doDismiss : List Event → (Bool × Option GErr) × List Event :=
          fun cevs =>
            match u.dismissal with
            | some d =>
              let loop := dismissLoop h state d.msgIDs
              match loop.1 with
              | some ab => ((ab.1, some ab.2), cevs ++ loop.2)
              | none => ((true, none), cevs ++ loop.2)
            | none => ((true, none), cevs)
        match u.creation with
        | some core =>
          let category := core.category.getD ""
          let item : Item := { md := u.md, category := core.category, body := core.body }
          let res := h.create category item
          let cev := [Event.createCall h.name category u.md.msgID]
          match res.2 with
          | some err => ((res.1, some err), cev)
          | none => doDismiss cev
        | none => doDismiss []

/-- The handler pass of `handleInBandMessage`: run the message on every
live handler (errors are only logged) and keep exactly the live handlers,
in order. -/
def ibmPassLoop (gcliO : Option GClient) (ibm : InBandMessage) :
    List IBMHandler → List IBMHandler × List Event
  | [] => ([], [])
  | h :: rest =>
    if h.isAlive then
      let res := handleIBMWithHandler gcliO ibm h
      let tail := ibmPassLoop gcliO ibm rest
      (h :: tail.1, res.2 ++ tail.2)
    else ibmPassLoop gcliO ibm rest

/-- `handleInBandMessage`: dispatch one in-band message to all live
in-band handlers, prune the dead ones, and always return a nil error. -/
def handleInBandMessage (g : GregorHandler) (ibm : InBandMessage) :
    GregorHandler × Option GErr × List Event :=
  let pass := ibmPassLoop g.gregorCli ibm g.ibmHandlers
  ({ g with ibmHandlers := pass.1 }, none, pass.2)

/-- `handleOutOfBandMessage`: a nil system is an error; otherwise the
message is mirrored to the firehose handlers, then dispatched on the
system tag. The bodies of the three external system handlers live outside
the embedded core, so their outcomes come from the environment field
`sysHandlers`; an unknown system is the unhandled-system error. -/
def handleOutOfBandMessage (g : GregorHandler) (obm : OutOfBandMessage) :
    GregorHandler × Option GErr × List Event :=
  match obm.system with
  | none => (g, some "nil system in out of band message", [])
  | some sys =>
    let pushed := pushOutOfBandMessages g
    let g1 := pushed.1
    match sys with
    | "kbfs.favorites" => (g1, g.sysHandlers sys, pushed.2)
    | "chat.activity" => (g1, g.sysHandlers sys, pushed.2)
    | "chat.tlffinalize" => (g1, g.sysHandlers sys, pushed.2)
    | "internal.reconnect" => (g1, none, pushed.2)
    | _ => (g1, some ("unhandled system: " ++ sys), pushed.2)

/-- The distinguished error returned for an in-band message whose id is
already in the state. -/
def repeatMessageError : GErr := "ignored repeat message"

/-- `BroadcastMessage`: for an in-band message, look the id up in the
state machine and return the repeat error if present; otherwise dispatch
to the handlers, consume into the state machine, and push the state to the
firehose when the filter accepts the message. An out-of-band message goes
to `handleOutOfBandMessage`; a message with neither half is invalid. -/
def broadcastMessage (g : GregorHandler) (m : Message) :
    GregorHandler × Option GErr × List Event :=
  match m.ibm with
  | some ibm =>
    match g.gregorCli with
    | none => (g, some "client unset", [])
    | some gcli =>
      let msgID := ibm.metadata.map (fun md => md.msgID)
      match msgID.bind (stateGetItem gcli.items) with
      | some _ => (g, some repeatMessageError, [])
      | none =>
        let hd := handleInBandMessage g ibm
        let gcli2 := gcli.consumeMessage m
        let g2 := { hd.1 with gregorCli := some gcli2 }
        let pst :=
          if g.pushStateFilter m then pushState g2 PushReason.newData else (g2, [])
        (pst.1, hd.2.1, hd.2.2 ++ [Event.consumeEv] ++ pst.2)
  | none =>
    match m.oobm with
    | some obm => handleOutOfBandMessage g obm
    | none => (g, some "invalid gregor message", [])

/-- The replay loop of `replayInBandMessages`: each message is run either
through the full handler pass (no specific handler) or against the one
given handler; a per-message error is logged and dropped, and the loop
always continues with the next message. -/
def replayLoop (hopt : Option IBMHandler) :
    GregorHandler → List InBandMessage → GregorHandler × List Event
  | g, [] => (g, [])
  | g, msg :: rest =>
    let step : GregorHandler × List Event :=
      match hopt with
      | none =>
        let r := handleInBandMessage g msg
        (r.1, r.2.2)
      | some h =>
        let r := handleIBMWithHandler g.gregorCli msg h
        (g, r.2)
    let tail := replayLoop hopt step.1 rest
    (tail.1, step.2 ++ tail.2)

/-- `replayInBandMessages`: fetch the messages to replay (fresh from the
state when the time is zero, incremental otherwise) and run the replay
loop over all of them, returning the fetched list. -/
def replayInBandMessages (g : GregorHandler) (t : Option Nat)
    (hopt : Option IBMHandler) :
    GregorHandler × Except GErr (List InBandMessage) × List Event :=
  match g.gregorCli with
  | none => (g, Except.error "client unset", [])
  | some gcli =>
    let msgs := replayFetch gcli t
    let run := replayLoop hopt g msgs
    (run.1, Except.ok msgs, run.2)

/-- `serverSync`: compute the replay start time from `freshReplay` and the
watermark, sync down from the server (the RPC outcome — the updated
client state and consumed messages, or an error — is an input), replay,
and only on success clear `freshReplay` and push a RECONNECTED state. -/
def serverSync (g : GregorHandler)
    (syncRes : Except GErr (GClient × List Message)) :
    GregorHandler × Except GErr (List InBandMessage × List Message) × List Event :=
  match g.gregorCli with
  | none => (g, Except.error "client unset", [])
  | some gcli =>
    let t : Option Nat := if g.freshReplay then none else gcli.latestCTime
    match syncRes with
    | Except.error e => (g, Except.error e, [])
    | Except.ok synced =>
      let g1 := { g with gregorCli := some synced.1 }
      let rep := replayInBandMessages g1 t none
      match rep.2.1 with
      | Except.error e => (rep.1, Except.error e, rep.2.2)
      | Except.ok replayed =>
        let g3 := { rep.1 with freshReplay := false }
        let pst := pushState g3 PushReason.reconnected
        (pst.1, Except.ok (replayed, synced.2), rep.2.2 ++ pst.2)

/-- The session data handed back by the login provider: token, uid, and
the error of the lookup itself. -/
structure SessionInfo where
  token : String
  uid : List Nat
  aerr : Option GErr
  deriving Repr

/-- The result of the `AuthenticateSessionToken` RPC. -/
structure AuthResult where
  uid : List Nat
  sid : String
  deriving DecidableEq, Repr

/-- `auth`: abort when shut down; a blank token is an error (returned
before the session-lookup error is examined); a session-lookup error sets
`skipRetryConnect`; then authenticate over the wire; a server uid that
differs from the session uid sets `skipRetryConnect`; on success record
the session id. -/
def auth (g : GregorHandler) (sess : SessionInfo)
    (authRPC : String → Except GErr AuthResult) : GregorHandler × Option GErr :=
  if g.shutdownChClosed then
    (g, some "server is dead, not authenticating")
  else if sess.token = "" then
    (g, some "blank session token would have been sent to gregor")
  else
    match sess.aerr with
    | some e => ({ g with skipRetryConnect := true }, some e)
    | none =>
      match authRPC sess.token with
      | Except.error e => (g, some e)
      | Except.ok ar =>
        if ar.uid = sess.uid then ({ g with sessionID := ar.sid }, none)
        else ({ g with skipRetryConnect := true },
          some "auth result uid does not match session uid")

/-- `ShouldRetryOnConnect`: a nil error never retries; a non-nil error
retries unless `skipRetryConnect` is set, in which case the flag is
cleared and the retry suppressed once. -/
def shouldRetryOnConnect (g : GregorHandler) (err : Option GErr) :
    Bool × GregorHandler :=
  match err with
  | none => (false, g)
  | some _ =>
    if g.skipRetryConnect then (false, { g with skipRetryConnect := false })
    else (true, g)

/-- `Shutdown`: with no connection, return immediately; otherwise close
the shutdown channel (a second close of an already-closed channel would
be the double-close panic), shut the connection down, and clear the
connection reference. -/
def shutdown (g : GregorHandler) : GregorHandler × List Event :=
  match g.conn with
  | none => (g, [])
  | some _ =>
    let closeEv :=
      if g.shutdownChClosed then Event.doubleClosePanic else Event.closeShutdownCh
    ({ g with conn := none, shutdownChClosed := true },
      [closeEv, Event.connShutdownEv])

/-- `templateMessage`: requires a current UID, then builds a state-update
message around a freshly generated MsgID (the random source is an input,
erroring when 16 random bytes cannot be drawn). -/
def templateMessage (g : GregorHandler) (randRes : Except GErr MsgID) :
    Except GErr Message :=
  match g.uid with
  | none => Except.error "cannot create new gregor items without a current UID"
  | some u =>
    match randRes with
    | Except.error e => Except.error e
    | Except.ok mid =>
      Except.ok
        { ibm := some
            { stateUpdate := some
                { md := { uid := u, msgID := mid, ctime := 0 }
                  creation := none
                  dismissal := none }
              stateSync := none }
          oobm := none }

/-- Install a dismissal of the given ids into a template message. -/
def withDismissal (m : Message) (ids : List MsgID) : Message :=
  { m with ibm := m.ibm.map (fun ibm =>
      { ibm with stateUpdate := ibm.stateUpdate.map (fun u =>
          { u with dismissal := some { msgIDs := ids, ranges := [] } }) }) }

/-- `DismissItem`: a nil id returns nil at once; otherwise build a template
message, attach a dismissal of the id, and send it over the `ConsumeMessage`
RPC (whose outcome is an input). The handler state is never mutated. -/
def dismissItem (g : GregorHandler) (id : Option MsgID)
    (randRes : Except GErr MsgID) (rpcErr : Option GErr) :
    GregorHandler × Option GErr × List Event :=
  match id with
  | none => (g, none, [])
  | some i =>
    match templateMessage g randRes with
    | Except.error e => (g, some e, [])
    | Except.ok tmpl =>
      let msg := withDismissal tmpl [i]
      (g, rpcErr, [Event.rpcConsume msg])

/-! Concrete fixtures used by witnesses and counterexamples. -/

def mdA : Metadata := { uid := [1], msgID := [10], ctime := 5 }

def mdB : Metadata := { uid := [1], msgID := [11], ctime := 6 }

def itemA : Item := { md := mdA, category := some "ca", body := [2] }

def itemB : Item := { md := mdB, category := some "cb", body := [3] }

def gcliAB : GClient := { items := [itemA, itemB], latestCTime := some 6, log := [] }

def okHandler : IBMHandler :=
  { name := "ok", isAlive := true
    create := fun _ _ => (true, none)
    dismiss := fun _ _ => (true, none) }

def failAllHandler : IBMHandler :=
  { name := "bad", isAlive := true
    create := fun _ _ => (true, some "boom")
    dismiss := fun _ _ => (true, some "boom") }

def baseHandlerState : GregorHandler :=
  { gregorCli := some gcliAB
    ibmHandlers := [okHandler]
    firehoseHandlers := [{ name := "f", isAlive := true }]
    skipRetryConnect := false
    freshReplay := true
    conn := some ()
    shutdownChClosed := false
    sessionID := ""
    badger := false
    pushStateFilter := fun _ => true
    sysHandlers := fun _ => none
    uid := some [1] }

/-! ### C1 — repeat in-band messages are rejected without side effects -/

/-- C1: a BroadcastMessage call on an in-band message whose MsgID is
already present in the state machine returns the distinguished repeat
error, leaves the handler state (state machine included) unchanged, and
produces an empty event trace: no in-band handler is invoked, the message
is not consumed, and no state snapshot is pushed to firehose
subscribers. -/
theorem broadcast_repeat_rejected (g : GregorHandler) (m : Message)
    (ibm : InBandMessage) (gcli : GClient) (md : Metadata) (item : Item)
    (him : m.ibm = some ibm) (hcli : g.gregorCli = some gcli)
    (hmd : ibm.metadata = some md)
    (hpresent : stateGetItem gcli.items md.msgID = some item) :
    broadcastMessage g m = (g, some repeatMessageError, []) := by
  simp [broadcastMessage, him, hcli, hmd, hpresent]

def ibmRepeatW : InBandMessage :=
  { stateUpdate := some
      { md := mdA, creation := some { category := some "ca", body := [2] }, dismissal := none }
    stateSync := none }

def msgRepeatW : Message := { ibm := some ibmRepeatW, oobm := none }

/-- C1 witness: a concrete repeat broadcast is rejected with no effects. -/
theorem broadcast_repeat_rejected_witness :
    broadcastMessage baseHandlerState msgRepeatW =
      (baseHandlerState, some repeatMessageError, []) :=
  broadcast_repeat_rejected baseHandlerState msgRepeatW ibmRepeatW gcliAB mdA itemA
    rfl rfl rfl rfl

/-! ### C5 — one-shot retry suppression -/

/-- C5: ShouldRetryOnConnect is a one-shot consumer of skipRetryConnect:
a nil error always returns false; a non-nil error with the flag set
returns false and clears the flag, so an immediately following call with
a non-nil error returns true; a non-nil error with the flag clear returns
true. -/
theorem shouldRetry_one_shot (g : GregorHandler) (e : GErr) :
    shouldRetryOnConnect g none = (false, g) ∧
    (g.skipRetryConnect = true →
      (shouldRetryOnConnect g (some e)).1 = false ∧
      (shouldRetryOnConnect g (some e)).2.skipRetryConnect = false ∧
      ∀ e2 : GErr,
        (shouldRetryOnConnect (shouldRetryOnConnect g (some e)).2 (some e2)).1 = true) ∧
    (g.skipRetryConnect = false → shouldRetryOnConnect g (some e) = (true, g)) := by
  refine ⟨rfl, ?_, ?_⟩ <;> intro h <;> simp [shouldRetryOnConnect, h]

def gFlagSet : GregorHandler := { baseHandlerState with skipRetryConnect := true }

/-- C5 witness: with the flag set, one non-nil-error call refuses the
retry and the next non-nil-error call allows it. -/
theorem shouldRetry_one_shot_witness :
    (shouldRetryOnConnect gFlagSet (some "x")).1 = false ∧
    (shouldRetryOnConnect (shouldRetryOnConnect gFlagSet (some "x")).2 (some "y")).1 = true :=
  ⟨((shouldRetry_one_shot gFlagSet "x").2.1 rfl).1,
   ((shouldRetry_one_shot gFlagSet "x").2.1 rfl).2.2 "y"⟩

/-! ### C8 — liveness pruning of both handler lists -/

theorem ibmPassLoop_fst (gcliO : Option GClient) (ibm : InBandMessage) :
    ∀ hs : List IBMHandler,
      (ibmPassLoop gcliO ibm hs).1 = hs.filter (fun h => h.isAlive)
  | [] => rfl
  | h :: rest => by
    cases hh : h.isAlive <;>
      simp [ibmPassLoop, hh, List.filter_cons, ibmPassLoop_fst gcliO ibm rest]

theorem iterFirehose_fst (f : FirehoseHandler → Event) :
    ∀ hs : List FirehoseHandler,
      (iterateOverFirehoseHandlers f hs).1 = hs.filter (fun h => h.isAlive)
  | [] => rfl
  | h :: rest => by
    cases hh : h.isAlive <;>
      simp [iterateOverFirehoseHandlers, hh, List.filter_cons, iterFirehose_fst f rest]

/-- C8: after one in-band dispatch pass the in-band handler list is
exactly its live sublist — dead handlers removed, live ones retained in
their original order — and one firehose iteration leaves the firehose
handler list exactly its live sublist as well. -/
theorem handler_pruning (g : GregorHandler) (ibm : InBandMessage)
    (f : FirehoseHandler → Event) :
    (handleInBandMessage g ibm).1.ibmHandlers =
      g.ibmHandlers.filter (fun h => h.isAlive) ∧
    (iterateOverFirehoseHandlers f g.firehoseHandlers).1 =
      g.firehoseHandlers.filter (fun h => h.isAlive) := by
  exact ⟨ibmPassLoop_fst g.gregorCli ibm g.ibmHandlers,
    iterFirehose_fst f g.firehoseHandlers⟩

/-! ### C9 — shutdown idempotence -/

/-- C9: the first Shutdown with a live connection closes the shutdown
channel, shuts the connection down, and clears the connection reference;
every subsequent Shutdown sees the nil connection and returns at once
with no events — in particular no second channel close, so the
double-close panic is unreachable — and with the state unchanged. -/
theorem shutdown_idempotent (g : GregorHandler) :
    shutdown (shutdown g).1 = ((shutdown g).1, []) ∧
    (g.conn = some () → g.shutdownChClosed = false →
      (shutdown g).1.conn = none ∧
      (shutdown g).1.shutdownChClosed = true ∧
      (shutdown g).2 = [Event.closeShutdownCh, Event.connShutdownEv]) := by
  constructor
  · cases hc : g.conn with
    | none => simp [shutdown, hc]
    | some _ => simp [shutdown, hc]
  · intro h1 h2
    simp [shutdown, h1, h2]

/-- C9 witness: a concrete first shutdown clears the connection and a
second one is a silent no-op. -/
theorem shutdown_idempotent_witness :
    (shutdown baseHandlerState).1.conn = none ∧
    shutdown (shutdown baseHandlerState).1 = ((shutdown baseHandlerState).1, []) :=
  ⟨((shutdown_idempotent baseHandlerState).2 rfl rfl).1,
   (shutdown_idempotent baseHandlerState).1⟩

/-! ### C10 — DismissItem on a nil id -/

/-- C10: DismissItem with a nil MsgID returns nil immediately, whatever
the random MsgID source or the RPC would have done: no template message
is built, no ConsumeMessage RPC is issued, and the handler state is
returned unchanged. -/
theorem dismissItem_nil_noop (g : GregorHandler) (randRes : Except GErr MsgID)
    (rpcErr : Option GErr) :
    dismissItem g none randRes rpcErr = (g, none, []) := rfl

/-! ### C7 — range-only dismissals are accepted and ignored -/

/-- C7: a state-update message whose dismissal carries no explicit MsgIDs
(only time/category ranges, which may be present) is accepted by the
handler dispatch with result (true, nil) and an empty trace: no Dismiss
call ever happens on account of a range. -/
theorem range_dismissal_ignored (gcli : GClient) (ibm : InBandMessage)
    (h : IBMHandler) (u : StateUpdateMessage) (d : Dismissal)
    (hsync : ibm.stateSync = none) (hupd : ibm.stateUpdate = some u)
    (hcr : u.creation = none) (hdis : u.dismissal = some d)
    (hids : d.msgIDs = []) :
    handleIBMWithHandler (some gcli) ibm h = ((true, none), []) := by
  simp [handleIBMWithHandler, hsync, hupd, hcr, hdis, hids, dismissLoop]

def rangeOnlyDismissal : Dismissal :=
  { msgIDs := [], ranges := [{ endTime := 9, category := some "ca" }] }

def rangeOnlyUpdate : StateUpdateMessage :=
  { md := mdB, creation := none, dismissal := some rangeOnlyDismissal }

def rangeOnlyIbm : InBandMessage :=
  { stateUpdate := some rangeOnlyUpdate, stateSync := none }

/-- C7 witness: a concrete range-only dismissal succeeds with no Dismiss
calls. -/
theorem range_dismissal_ignored_witness :
    handleIBMWithHandler (some gcliAB) rangeOnlyIbm okHandler = ((true, none), []) :=
  range_dismissal_ignored gcliAB rangeOnlyIbm okHandler rangeOnlyUpdate
    rangeOnlyDismissal rfl rfl rfl rfl rfl

/-! ### C6 — replay never aborts on per-message failures -/

theorem replayLoop_append (hopt : Option IBMHandler) :
    ∀ (ms1 ms2 : List InBandMessage) (g : GregorHandler),
      replayLoop hopt g (ms1 ++ ms2) =
        ((replayLoop hopt (replayLoop hopt g ms1).1 ms2).1,
          (replayLoop hopt g ms1).2 ++ (replayLoop hopt (replayLoop hopt g ms1).1 ms2).2)
  | [], ms2, g => by simp [replayLoop]
  | msg :: rest, ms2, g => by
    simp [replayLoop, replayLoop_append hopt rest ms2]

/-- C6: replayInBandMessages returns the full fetched message list with a
nil error whatever the handlers do — per-message handler failures never
change the outcome — and the replay loop is compositional over
concatenation, so it never aborts early: every message in the list is
applied, in order. -/
theorem replay_never_aborts (g : GregorHandler) (gcli : GClient)
    (t : Option Nat) (hopt : Option IBMHandler)
    (hcli : g.gregorCli = some gcli) :
    (replayInBandMessages g t hopt).2.1 = Except.ok (replayFetch gcli t) ∧
    ∀ (ms1 ms2 : List InBandMessage) (g2 : GregorHandler),
      (replayLoop hopt g2 (ms1 ++ ms2)).2 =
        (replayLoop hopt g2 ms1).2 ++
          (replayLoop hopt (replayLoop hopt g2 ms1).1 ms2).2 := by
  constructor
  · simp [replayInBandMessages, hcli]
  · intro ms1 ms2 g2
    rw [replayLoop_append hopt ms1 ms2 g2]

def gFailReplay : GregorHandler := { baseHandlerState with ibmHandlers := [failAllHandler] }

/-- C6 witness: a concrete replay over a state of two items, with a
handler that errors on every message, still returns the full two-message
list without error. -/
theorem replay_never_aborts_witness :
    (replayInBandMessages gFailReplay none none).2.1 =
      Except.ok (replayFetch gcliAB none) :=
  (replay_never_aborts gFailReplay gcliAB none none rfl).1

/-! ### C2 — dismissal dispatch semantics -/

/-- The dismissal dispatch trace the spec describes: one Dismiss call per
occurrence of a present target id, in order, carrying that item category;
absent ids contribute nothing. -/
def expectedDismissTrace (hname : String) (items : List Item)
    (ids : List MsgID) : List Event :=
  ids.filterMap (fun id => (stateGetItem items id).map
    (fun it => Event.dismissCall hname (it.category.getD "") it.md.msgID))

/-- The creation part of a handler trace: one Create call when a creation
is present. -/
def creationTrace (hname : String) (u : StateUpdateMessage) : List Event :=
  match u.creation with
  | some core => [Event.createCall hname (core.category.getD "") u.md.msgID]
  | none => []

theorem dismissLoop_no_abort (h : IBMHandler) (st : List Item) :
    ∀ ids : List MsgID,
      (∀ id it, id ∈ ids → stateGetItem st id = some it →
        (h.dismiss (it.category.getD "") it).2 = none ∨
        (h.dismiss (it.category.getD "") it).1 = false) →
      dismissLoop h st ids = (none, expectedDismissTrace h.name st ids)
  | [], _ => rfl
  | id :: rest, hyp => by
    have htail := dismissLoop_no_abort h st rest
      (fun i it hi => hyp i it (List.mem_cons_of_mem id hi))
    cases hit : stateGetItem st id with
    | none =>
      simp [dismissLoop, hit, htail, expectedDismissTrace, List.filterMap_cons]
    | some it =>
      rcases hyp id it (List.mem_cons_self id rest) hit with he | hh
      · simp [dismissLoop, hit, he, htail, expectedDismissTrace, List.filterMap_cons]
      · cases he2 : (h.dismiss (it.category.getD "") it).2 with
        | none =>
          simp [dismissLoop, hit, he2, htail, expectedDismissTrace, List.filterMap_cons]
        | some err =>
          simp [dismissLoop, hit, he2, hh, htail, expectedDismissTrace,
            List.filterMap_cons]

/-- C2 counterexample: both target ids [10] and [11] are present in the
state, but with a handler whose Dismiss reports handled together with an
error, the dispatch aborts after the first target: the trace holds exactly
one Dismiss call, and the present id [11] receives no Dismiss call at all
— refuting the claim that every present target causes exactly one Dismiss
call with no error resulting. -/
theorem dismissal_dispatch_cx :
    stateGetItem gcliAB.items [11] = some itemB ∧
    (handleIBMWithHandler (some gcliAB)
        { stateUpdate := some
            { md := { uid := [1], msgID := [12], ctime := 7 }
              creation := none
              dismissal := some { msgIDs := [[10], [11]], ranges := [] } }
          stateSync := none }
        { name := "ah", isAlive := true
          create := fun _ _ => (true, none)
          dismiss := fun _ _ => (true, some "dismiss failed") }).2 =
      [Event.dismissCall "ah" "ca" [10]] ∧
    Event.dismissCall "ah" "cb" [11] ∉
      (handleIBMWithHandler (some gcliAB)
          { stateUpdate := some
              { md := { uid := [1], msgID := [12], ctime := 7 }
                creation := none
                dismissal := some { msgIDs := [[10], [11]], ranges := [] } }
            stateSync := none }
          { name := "ah", isAlive := true
            create := fun _ _ => (true, none)
            dismiss := fun _ _ => (true, some "dismiss failed") }).2 := by
  refine ⟨rfl, rfl, ?_⟩
  decide

/-- C2 (amended): for a state-update message carrying a dismissal —
provided any Create call on its creation returns no error and no Dismiss
call on a present target returns handled together with an error — the
handler run succeeds with (true, nil) and its trace is the creation trace
followed by exactly one Dismiss call per occurrence of a present target
id, looked up in the state before consumption and carrying that item
category, while absent targets are silently skipped with no call and no
error. -/
theorem dismissal_dispatch (gcli : GClient) (ibm : InBandMessage)
    (h : IBMHandler) (u : StateUpdateMessage) (d : Dismissal)
    (hsync : ibm.stateSync = none) (hupd : ibm.stateUpdate = some u)
    (hdis : u.dismissal = some d)
    (hcr : ∀ core, u.creation = some core →
      (h.create (core.category.getD "")
        { md := u.md, category := core.category, body := core.body }).2 = none)
    (hnoab : ∀ id it, id ∈ d.msgIDs → stateGetItem gcli.items id = some it →
      (h.dismiss (it.category.getD "") it).2 = none ∨
      (h.dismiss (it.category.getD "") it).1 = false) :
    handleIBMWithHandler (some gcli) ibm h =
      ((true, none),
        creationTrace h.name u ++ expectedDismissTrace h.name gcli.items d.msgIDs) := by
  have hd := dismissLoop_no_abort h gcli.items d.msgIDs hnoab
  cases hc : u.creation with
  | none =>
    simp [handleIBMWithHandler, hsync, hupd, hdis, hc, hd, creationTrace]
  | some core =>
    have hce := hcr core hc
    simp [handleIBMWithHandler, hsync, hupd, hdis, hc, hd, creationTrace, hce]

def dismissMixedIbm : InBandMessage :=
  { stateUpdate := some
      { md := { uid := [1], msgID := [13], ctime := 8 }
        creation := none
        dismissal := some { msgIDs := [[10], [99], [11]], ranges := [] } }
    stateSync := none }

/-- C2 witness: a concrete dismissal of one absent and two present targets
produces exactly one Dismiss call per present target with its category, in
order, and succeeds. -/
theorem dismissal_dispatch_witness :
    handleIBMWithHandler (some gcliAB) dismissMixedIbm okHandler =
      ((true, none),
        [Event.dismissCall "ok" "ca" [10], Event.dismissCall "ok" "cb" [11]]) := by
  have := dismissal_dispatch gcliAB dismissMixedIbm okHandler
    { md := { uid := [1], msgID := [13], ctime := 8 }
      creation := none
      dismissal := some { msgIDs := [[10], [99], [11]], ranges := [] } }
    { msgIDs := [[10], [99], [11]], ranges := [] }
    rfl rfl rfl
    (fun core hcore => by simp [dismissMixedIbm] at hcore)
    (fun id it _ _ => Or.inl rfl)
  simpa [creationTrace, expectedDismissTrace, stateGetItem, gcliAB, itemA, itemB,
    mdA, mdB, okHandler] using this

/-! ### C3 — auth with an empty session token -/

def sessEmptyTok : SessionInfo := { token := "", uid := [1], aerr := none }

def authOkRPC : String → Except GErr AuthResult :=
  fun _ => Except.ok { uid := [1], sid := "s" }

/-- C3 counterexample: with an empty session token, auth returns an error
yet skipRetryConnect remains false afterwards — the blank-token check
returns before the only assignments of the flag — refuting the claim that
the flag is set to true. -/
theorem auth_empty_token_cx :
    (auth baseHandlerState sessEmptyTok authOkRPC).2.isSome = true ∧
    (auth baseHandlerState sessEmptyTok authOkRPC).1.skipRetryConnect = false :=
  ⟨rfl, rfl⟩

/-- C3 (amended): if the session provider returns an empty session token
(and the handler is not shut down), auth fails with the blank-token error
but leaves the handler state — skipRetryConnect included — unchanged, so
reconnect is not suppressed. -/
theorem auth_empty_token (g : GregorHandler) (sess : SessionInfo)
    (authRPC : String → Except GErr AuthResult)
    (hch : g.shutdownChClosed = false) (htok : sess.token = "") :
    auth g sess authRPC =
      (g, some "blank session token would have been sent to gregor") := by
  simp [auth, hch, htok]

/-- C3 witness: the amended statement at a concrete state and session. -/
theorem auth_empty_token_witness :
    auth baseHandlerState sessEmptyTok authOkRPC =
      (baseHandlerState, some "blank session token would have been sent to gregor") :=
  auth_empty_token baseHandlerState sessEmptyTok authOkRPC rfl rfl

/-! ### C4 — when serverSync clears freshReplay -/

theorem pushState_freshReplay (g : GregorHandler) (r : PushReason) :
    (pushState g r).1.freshReplay = g.freshReplay := by
  cases h : getState g <;> simp [pushState, h]

/-- C4 counterexample: starting from a state with freshReplay set, a
serverSync whose Sync RPC errors returns that error and leaves freshReplay
true — refuting the claim that the flag is false after the first
serverSync unconditionally, including on error. -/
theorem serverSync_freshReplay_cx :
    baseHandlerState.freshReplay = true ∧
    (serverSync baseHandlerState (Except.error "network")).2.1 =
      Except.error "network" ∧
    (serverSync baseHandlerState (Except.error "network")).1.freshReplay = true :=
  ⟨rfl, rfl, rfl⟩

/-- C4 (amended): serverSync clears freshReplay exactly on success: after
a run that returns without error the flag is false, while a run that
returns an error — the Sync RPC or the replay fetch failing — leaves the
flag unchanged, so a failed first sync keeps the fresh replay pending. -/
theorem serverSync_freshReplay (g : GregorHandler)
    (syncRes : Except GErr (GClient × List Message)) :
    (∀ r, (serverSync g syncRes).2.1 = Except.ok r →
      (serverSync g syncRes).1.freshReplay = false) ∧
    (∀ e, (serverSync g syncRes).2.1 = Except.error e →
      (serverSync g syncRes).1.freshReplay = g.freshReplay) := by
  cases hg : g.gregorCli with
  | none => simp [serverSync, hg]
  | some gcli =>
    cases syncRes with
    | error e => simp [serverSync, hg]
    | ok synced =>
      constructor
      · intro r _
        simp [serverSync, hg, replayInBandMessages, pushState_freshReplay]
      · intro e he
        simp [serverSync, hg, replayInBandMessages] at he

/-- C4 witness: a concrete successful serverSync ends with freshReplay
false. -/
theorem serverSync_freshReplay_witness :
    (serverSync baseHandlerState (Except.ok (gcliAB, []))).1.freshReplay = false :=
  (serverSync_freshReplay baseHandlerState (Except.ok (gcliAB, []))).1 _ rfl

end Gregor
